import Mathlib

/-!
Shallow embedding of the contact-submission abuse-mitigation pipeline of
`app/security_utils.py` and of the contact route of
`app/blueprints/main/routes.py`, with theorems settling the specification
claims about it.

Modelling conventions: text is `List Char` (the ASCII fragment of Python
`str` semantics: `Char.toLower` lowercases A-Z exactly as `str.lower` does on
ASCII, and the regex classes are read over ASCII); instants are rational
numbers of seconds, so `timedelta(minutes=1)` becomes `60`; rows of the
`contact_submission_logs` table (created by
`migrations/migration_002_add_security_fields.py`, mapped by the
`ContactSubmissionLog` class imported in `app/security_utils.py`) become a
structure, and SQLAlchemy queries become list filtering; the float weights
0.05, 0.1, 0.15, 0.2, 0.3, 0.4, 0.7 of the scorer are the exact rationals
1/20, 1/10, 3/20, 1/5, 3/10, 2/5, 7/10.
-/

abbrev Text := List Char

/-- ASCII model of the regex class `\w` (word character): letter, digit or
underscore. -/
def isWordChar (c : Char) : Bool := c.isAlpha || c.isDigit || c == '_'

/-- ASCII model of the regex class `\s` and of the whitespace stripped by
`str.strip`: space, tab, LF, VT, FF, CR. -/
def isSpaceChar (c : Char) : Bool :=
  c == ' ' || c == '\t' || c == '\n' || c == '\r' || c == '\x0b' || c == '\x0c'

/-- Python `str.lower` on ASCII text. -/
def toLowerText (t : Text) : Text := t.map Char.toLower

/-- Python `str.strip`: drop leading and trailing whitespace. -/
def stripText (t : Text) : Text :=
  ((t.dropWhile isSpaceChar).reverse.dropWhile isSpaceChar).reverse

/-- Python `needle in haystack` on strings: contiguous-substring test. -/
def isSubTextOf (p : Text) : Text → Bool
  | [] => p.isEmpty
  | c :: t => p.isPrefixOf (c :: t) || isSubTextOf p t

/-- Keyword list `SPAM_KEYWORDS` of `app/security_utils.py` lines 16-25. -/
def SPAM_KEYWORDS : List Text :=
  ["bitcoin", "cryptocurrency", "investment", "trading", "forex", "casino",
   "viagra", "cialis", "pharmacy", "pills", "weight loss", "diet pills",
   "make money", "earn money", "work from home", "business opportunity",
   "guaranteed", "no risk", "limited time", "act now", "urgent",
   "click here", "visit our website", "check out our", "amazing deal",
   "seo services", "backlinks", "increase traffic", "ranking",
   "loan", "credit", "debt", "mortgage", "insurance",
   "replica", "fake", "counterfeit", "cheap", "discount"].map String.data

/-- Count of `sum(1 for keyword in SPAM_KEYWORDS if keyword in all_text)`
(line 128): how many keywords occur in the combined text. -/
def keywordMatches (allText : Text) : Nat :=
  (SPAM_KEYWORDS.filter (fun k => isSubTextOf k allText)).length

/-- Scanner counting `re.findall` matches of a greedy character-class run
pattern such as `[!]{2,}` or `[^\w\s]{3,}`: one match per maximal run of
`p`-characters of length at least `n`; `len` is the length of the currently
open run. -/
def countRunsGo (p : Char → Bool) (n : Nat) : Nat → Text → Nat
  | len, [] => if 0 < len ∧ n ≤ len then 1 else 0
  | len, c :: t =>
    if p c then countRunsGo p n (len + 1) t
    else (if 0 < len ∧ n ≤ len then 1 else 0) + countRunsGo p n 0 t

/-- Count of maximal runs of `p`-characters of length at least `n`. -/
def countRuns (p : Char → Bool) (n : Nat) (t : Text) : Nat := countRunsGo p n 0 t

/-- Scanner counting `re.findall` matches of a word-boundary-delimited run
pattern such as `\b[A-Z]{3,}\b` or `\b\d{10,}\b`, where the `p`-characters are
word characters: a maximal run of `p`-characters matches exactly when its
length is at least `n` and each neighbour is absent or a non-word character
(no boundary can fall inside the run).  `prevWord` records whether the
character before the current run start was a word character, `startOk` whether
the open run is preceded by the string edge or a non-word character, `len` the
length of the open run. -/
def countBoundedRunsGo (p : Char → Bool) (n : Nat) :
    Bool → Bool → Nat → Text → Nat
  | _, startOk, len, [] => if 0 < len ∧ n ≤ len ∧ startOk = true then 1 else 0
  | prevWord, startOk, len, c :: t =>
    if p c then
      if len = 0 then countBoundedRunsGo p n prevWord (!prevWord) 1 t
      else countBoundedRunsGo p n prevWord startOk (len + 1) t
    else
      (if 0 < len ∧ n ≤ len ∧ startOk = true ∧ isWordChar c = false then 1 else 0)
      + countBoundedRunsGo p n (isWordChar c) startOk 0 t

/-- Count of word-boundary-delimited maximal runs, starting at the string
edge. -/
def countBoundedRuns (p : Char → Bool) (n : Nat) (t : Text) : Nat :=
  countBoundedRunsGo p n false false 0 t

/-- Count of `re.findall` matches of `\$\d+` (dollar sign followed by a greedy
digit run): one per dollar sign whose successor is a digit; a match consumes
its digits, which contain no dollar sign, so matches never overlap. -/
def countDollarAmounts : Text → Nat
  | [] => 0
  | c :: t =>
    (match t with
     | [] => 0
     | d :: _ => if c = '$' ∧ d.isDigit = true then 1 else 0)
    + countDollarAmounts t

/-- Length of the scheme when the text starts with one of the alternatives of
`https?://`. -/
def urlSchemeLen (t : Text) : Option Nat :=
  if ("https://".data).isPrefixOf t then some 8
  else if ("http://".data).isPrefixOf t then some 7
  else none

/-- Fuel-indexed scanner for `re.findall` on `https?://[^\s]+`: at each
position try the scheme, then take the greedy non-space run; a successful
match consumes scheme and run and scanning resumes after it.  Each step
consumes at least one character, so fuel equal to the text length scans the
whole text. -/
def countUrlsGo : Nat → Text → Nat
  | 0, _ => 0
  | _, [] => 0
  | fuel + 1, c :: t =>
    match urlSchemeLen (c :: t) with
    | some k =>
      let rest := (c :: t).drop k
      let body := rest.takeWhile (fun x => !isSpaceChar x)
      if 0 < body.length then 1 + countUrlsGo fuel (rest.drop body.length)
      else countUrlsGo fuel t
    | none => countUrlsGo fuel t

/-- Count of `re.findall` matches of `https?://[^\s]+`. -/
def countUrls (t : Text) : Nat := countUrlsGo t.length t

/-- Python `re.search(r'(.)\1{4,}', text)` (line 160): some character other
than a newline (which the dot does not match) occurs five or more times
consecutively. -/
def hasRepeatedRunGo : Char → Nat → Text → Bool
  | prev, len, [] => decide (5 ≤ len) && decide (prev ≠ '\n')
  | prev, len, c :: t =>
    if c = prev then hasRepeatedRunGo prev (len + 1) t
    else (decide (5 ≤ len) && decide (prev ≠ '\n')) || hasRepeatedRunGo c 1 t

/-- Whether some non-newline character repeats five or more times in a row. -/
def hasRepeatedRun : Text → Bool
  | [] => false
  | c :: t => hasRepeatedRunGo c 1 t

/-- Python `re.search(r'\d{5,}', text)` (line 155): some position starts a run
of at least five digits. -/
def hasDigitRun5 (t : Text) : Bool :=
  (List.range t.length).any
    (fun i => decide (5 ≤ ((t.drop i).takeWhile Char.isDigit).length))

/-- Membership in the punctuation class of line 170. -/
def isPunctChar (c : Char) : Bool :=
  c == '!' || c == '@' || c == '#' || c == '$' || c == '%' || c == '^' ||
  c == '&' || c == '*' || c == '(' || c == ')' || c == ',' || c == '.' ||
  c == '?' || c == '"' || c == ':' || c == '\x7b' || c == '\x7d' ||
  c == '|' || c == '<' || c == '>'

/-- Combined text `all_text = (name + " " + email + " " + subject + " " +
message).lower()` of line 125. -/
def all_text (name email subject message : Text) : Text :=
  toLowerText (name ++ [' '] ++ email ++ [' '] ++ subject ++ [' '] ++ message)

/-- Total `re.findall` match count over the six `SPAM_PATTERNS` regexes of
lines 28-35, summed by lines 135-138, in source order: URLs, upper-case runs,
exclamation runs, dollar amounts, long digit runs, special-character runs. -/
def patternMatches (t : Text) : Nat :=
  countUrls t
  + countBoundedRuns (fun c => decide ('A' ≤ c) && decide (c ≤ 'Z')) 3 t
  + countRuns (fun c => c == '!') 2 t
  + countDollarAmounts t
  + countBoundedRuns Char.isDigit 10 t
  + countRuns (fun c => !isWordChar c && !isSpaceChar c) 3 t

/-- Keyword signal of lines 128-132: `min(keyword_matches * 0.1, 0.4)` when
some keyword matched, else nothing. -/
def keywordContribution (t : Text) : ℚ :=
  if 0 < keywordMatches t then min ((keywordMatches t : ℚ) * (1 / 10)) (2 / 5) else 0

/-- Pattern signal of lines 134-143: `min(pattern_matches * 0.05, 0.3)` when
some pattern matched. -/
def patternContribution (t : Text) : ℚ :=
  if 0 < patternMatches t then min ((patternMatches t : ℚ) * (1 / 20)) (3 / 10) else 0

/-- Message-length signal of lines 145-152 on the stripped body: below 10
characters adds 0.2, above 2000 adds 0.15. -/
def lengthContribution (message : Text) : ℚ :=
  if (stripText message).length < 10 then 1 / 5
  else if 2000 < (stripText message).length then 3 / 20
  else 0

/-- Numeric-email signal of lines 154-157: `re.search(r'\d{5,}', email)` over
the whole submitted email address adds 0.1. -/
def numericEmailContribution (email : Text) : ℚ :=
  if hasDigitRun5 email then 1 / 10 else 0

/-- Repeated-character signal of lines 159-162 on the combined text. -/
def repeatedCharsContribution (t : Text) : ℚ :=
  if hasRepeatedRun t then 1 / 10 else 0

/-- No-space signal of lines 164-167: `' ' not in message.strip()` adds 0.2. -/
def noSpacesContribution (message : Text) : ℚ :=
  if ' ' ∈ stripText message then 0 else 1 / 5

/-- Punctuation ratio of line 170: punctuation-character count over
`max(len(message), 1)`, on the unstripped body. -/
def punctFrac (message : Text) : ℚ :=
  ((message.filter isPunctChar).length : ℚ) / (max message.length 1 : ℚ)

/-- Punctuation signal of lines 169-174: when the ratio exceeds 0.1, add
`min(ratio * 0.5, 0.2)`. -/
def punctContribution (message : Text) : ℚ :=
  if 1 / 10 < punctFrac message then min (punctFrac message * (1 / 2)) (1 / 5) else 0

/-- Embedding of `calculate_spam_score` (`app/security_utils.py` lines
114-180): the sum of the signal contributions, finally clamped by
`min(score, 1.0)`. -/
def calculate_spam_score (name email subject message : Text) : ℚ :=
  min (keywordContribution (all_text name email subject message)
      + patternContribution (all_text name email subject message)
      + lengthContribution message
      + numericEmailContribution email
      + repeatedCharsContribution (all_text name email subject message)
      + noSpacesContribution message
      + punctContribution message) 1

/-- Abstract signal vector of the scorer: the quantities each signal of
`calculate_spam_score` is gated and weighted by. -/
structure SpamSignals where
  keywordCount : Nat
  patternCount : Nat
  shortMessage : Bool
  longMessage : Bool
  numericEmail : Bool
  repeatedChars : Bool
  noSpaces : Bool
  punctF : ℚ
deriving DecidableEq

/-- Score accumulation of `calculate_spam_score` as a function of the signal
vector alone. -/
def contribOfSignals (s : SpamSignals) : ℚ :=
  (if 0 < s.keywordCount then min ((s.keywordCount : ℚ) * (1 / 10)) (2 / 5) else 0)
  + (if 0 < s.patternCount then min ((s.patternCount : ℚ) * (1 / 20)) (3 / 10) else 0)
  + (if s.shortMessage then 1 / 5 else 0)
  + (if s.longMessage then 3 / 20 else 0)
  + (if s.numericEmail then 1 / 10 else 0)
  + (if s.repeatedChars then 1 / 10 else 0)
  + (if s.noSpaces then 1 / 5 else 0)
  + (if 1 / 10 < s.punctF then min (s.punctF * (1 / 2)) (1 / 5) else 0)

/-- Clamped score as a function of the signal vector. -/
def scoreOfSignals (s : SpamSignals) : ℚ := min (contribOfSignals s) 1

/-- Signal vector extracted from an input by the scorer's analyses. -/
def signalsOf (name email subject message : Text) : SpamSignals :=
  { keywordCount := keywordMatches (all_text name email subject message)
    patternCount := patternMatches (all_text name email subject message)
    shortMessage := decide ((stripText message).length < 10)
    longMessage := decide (¬ (stripText message).length < 10 ∧ 2000 < (stripText message).length)
    numericEmail := hasDigitRun5 email
    repeatedChars := hasRepeatedRun (all_text name email subject message)
    noSpaces := decide (¬ ' ' ∈ stripText message)
    punctF := punctFrac message }

/-- Pointwise order on signal vectors: each count, flag and ratio at most the
corresponding one. -/
def SignalsLE (s t : SpamSignals) : Prop :=
  s.keywordCount ≤ t.keywordCount ∧ s.patternCount ≤ t.patternCount ∧
  (s.shortMessage = true → t.shortMessage = true) ∧
  (s.longMessage = true → t.longMessage = true) ∧
  (s.numericEmail = true → t.numericEmail = true) ∧
  (s.repeatedChars = true → t.repeatedChars = true) ∧
  (s.noSpaces = true → t.noSpaces = true) ∧
  s.punctF ≤ t.punctF

/-- One row of the `contact_submission_logs` table: one record per
contact-form POST, as inserted by `log_submission_attempt`
(`app/security_utils.py` lines 197-212).  Columns from
`migrations/migration_002_add_security_fields.py` lines 48-57. -/
structure SubmissionRecord where
  ip_address : Text
  email : Text
  submitted_at : ℤ
  success : Bool
  user_agent : Text
deriving DecidableEq

/-- Row predicate of the window query of `check_rate_limit` (lines 88-100):
an IP match inside the window, unioned - when the `email` argument is a
non-empty string - with an email match inside the window.  Distinct table
rows stay distinct under the SQL `UNION` (the selected primary key differs),
so the cardinality of the union is the number of rows matching either
branch. -/
def rowMatches (ip : Text) (email : Option Text) (ws : ℤ) (r : SubmissionRecord) : Bool :=
  (r.ip_address == ip && decide (ws ≤ r.submitted_at))
  || (match email with
      | some e => !e.isEmpty && r.email == e && decide (ws ≤ r.submitted_at)
      | none => false)

/-- Result of `query.count()` at line 102 for a window starting at `ws`. -/
def submissionCount (store : List SubmissionRecord) (ip : Text) (email : Option Text) (ws : ℤ) : Nat :=
  (store.filter (rowMatches ip email ws)).length

/-- Telemetry dictionary `rate_limit_info` of lines 78-82, with the
per-window entries in insertion order. -/
structure RateLimitInfo where
  remaining : List (String × Nat)
  reset_times : List (String × ℤ)
  blocked_until : Option ℤ
deriving DecidableEq

/-- Window table `LIMITS` of lines 72-76: name, max count and window length
in seconds, in dict iteration (insertion) order, shortest window first. -/
def LIMITS : List (String × Nat × ℤ) :=
  [("per_minute", (2, 60)), ("per_hour", (10, 3600)), ("per_day", (50, 86400))]

/-- Loop body of `check_rate_limit` (lines 84-110): per window, count the
matching rows, record remaining count (`max(0, limit - count)`, which is Nat
truncated subtraction) and reset time, and on `count >= limit` return
`(False, info)` with `blocked_until = now + window`, short-circuiting. -/
def checkRateLimitGo (store : List SubmissionRecord) (ip : Text) (email : Option Text)
    (now : ℤ) : List (String × Nat × ℤ) → RateLimitInfo → Bool × RateLimitInfo
  | [], info => (true, info)
  | (name, maxCount, window) :: rest, info =>
    if maxCount ≤ submissionCount store ip email (now - window) then
      (false,
        { remaining := info.remaining ++ [(name, maxCount - submissionCount store ip email (now - window))]
          reset_times := info.reset_times ++ [(name, now + window)]
          blocked_until := some (now + window) })
    else
      checkRateLimitGo store ip email now rest
        { info with
          remaining := info.remaining ++ [(name, maxCount - submissionCount store ip email (now - window))]
          reset_times := info.reset_times ++ [(name, now + window)] }

/-- Embedding of `check_rate_limit` (`app/security_utils.py` lines 62-112). -/
def check_rate_limit (store : List SubmissionRecord) (ip : Text) (email : Option Text)
    (now : ℤ) : Bool × RateLimitInfo :=
  checkRateLimitGo store ip email now LIMITS
    { remaining := [], reset_times := [], blocked_until := none }

/-- Embedding of `check_rate_limit` with the store's `query.count()` as a
fallible operation: the Python function body contains no exception handler,
so a store fault raised while counting a window propagates to the caller;
the match on `Except.error` reproduces that propagation. -/
def checkRateLimitGoF (count : ℤ → Except Unit Nat) (now : ℤ) :
    List (String × Nat × ℤ) → RateLimitInfo → Except Unit (Bool × RateLimitInfo)
  | [], info => .ok (true, info)
  | (name, maxCount, window) :: rest, info =>
    match count (now - window) with
    | .error e => .error e
    | .ok c =>
      if maxCount ≤ c then
        .ok (false,
          { remaining := info.remaining ++ [(name, maxCount - c)]
            reset_times := info.reset_times ++ [(name, now + window)]
            blocked_until := some (now + window) })
      else
        checkRateLimitGoF count now rest
          { info with
            remaining := info.remaining ++ [(name, maxCount - c)]
            reset_times := info.reset_times ++ [(name, now + window)] }

/-- Entry point of the fallible-store reading of `check_rate_limit`. -/
def check_rate_limit_fallible (count : ℤ → Except Unit Nat) (now : ℤ) :
    Except Unit (Bool × RateLimitInfo) :=
  checkRateLimitGoF count now LIMITS
    { remaining := [], reset_times := [], blocked_until := none }

/-- Outcome of one `cleanup_old_logs` run: the surviving rows, the local
`deleted` count (used only in the log line), and the value returned to the
caller. -/
structure CleanupResult where
  store : List SubmissionRecord
  deletedCount : Nat
  retVal : Option Nat
deriving DecidableEq

/-- Embedding of `cleanup_old_logs` (`app/security_utils.py` lines 214-226):
rows with `submitted_at < cutoff`, `cutoff = now - timedelta(days =
days_to_keep)`, are deleted; the count is bound to the local `deleted` and
logged; the function is annotated `-> None` and has no return statement, so
the caller receives `None` (`retVal := none`). -/
def cleanup_old_logs (store : List SubmissionRecord) (now : ℤ) (days_to_keep : ℤ) :
    CleanupResult :=
  { store := store.filter (fun r => !decide (r.submitted_at < now - days_to_keep * 86400))
    deletedCount := (store.filter (fun r => decide (r.submitted_at < now - days_to_keep * 86400))).length
    retVal := none }

/-- Decoy field names of `is_honeypot_triggered` (line 234). -/
def honeypot_fields : List Text :=
  ["website", "url", "phone_number", "fax", "company"].map String.data

/-- Dictionary lookup `form_data[field]` on the submitted form mapping. -/
def lookupField (form : List (Text × Text)) (k : Text) : Option Text :=
  (form.find? (fun p => p.1 == k)).map (fun p => p.2)

/-- Embedding of `is_honeypot_triggered` (`app/security_utils.py` lines
228-241): a decoy field present in the form with a truthy stripped value. -/
def is_honeypot_triggered (form : List (Text × Text)) : Bool :=
  honeypot_fields.any (fun f =>
    match lookupField form f with
    | some v => !(stripText v).isEmpty
    | none => false)

/-- Bot token list of `is_suspicious_user_agent` (lines 190-193). -/
def bot_patterns : List Text :=
  ["bot", "crawler", "spider", "scraper", "curl", "wget", "python",
   "requests", "urllib", "http", "java", "go-http", "okhttp"].map String.data

/-- Embedding of `is_suspicious_user_agent` (`app/security_utils.py` lines
182-195): empty user agent, or a known token occurs in the lowercased user
agent. -/
def is_suspicious_user_agent (ua : Text) : Bool :=
  if ua.isEmpty then true
  else bot_patterns.any (fun p => isSubTextOf p (toLowerText ua))

/-- Embedding of `validate_recaptcha_freshness` (`app/security_utils.py`
lines 243-256); the argument is `none` when the session value is absent or
falsy and `some t` when it parses to instant `t`.  The function is defined in
the source but never called by the contact route. -/
def validate_recaptcha_freshness (lastRecaptcha : Option ℤ) (now : ℤ) : Bool :=
  match lastRecaptcha with
  | none => false
  | some t => if 300 < now - t then false else true

/-- Session slice touched by the contact route: the
`last_recaptcha_validation` entry (outer `Option`: key present; inner
`Option`: value truthy and parseable by `datetime.fromisoformat`, the
`except: pass` of lines 121-122 swallowing the failure) and the
`last_submission` timestamp. -/
structure SessionState where
  last_recaptcha_validation : Option (Option ℤ)
  last_submission : Option ℤ
deriving DecidableEq

/-- Input of one POST to the contact route after WTForms validation: the
validated fields, the raw form mapping (for honeypot inspection), the
user-agent header and the resolved client IP. -/
structure ContactRequest where
  name : Text
  email : Text
  subject : Text
  message : Text
  formFields : List (Text × Text)
  userAgent : Text
  clientIp : Text
deriving DecidableEq

/-- Stored `ContactMessage` row as constructed at
`app/blueprints/main/routes.py` lines 142-151. -/
structure ContactMessageRec where
  name : Text
  email : Text
  subject : Text
  message : Text
  ip_address : Text
  user_agent : Text
  spam_score : ℚ
  is_spam : Bool
deriving DecidableEq

/-- Final verdict of one pipeline run; a blocked verdict carries the
`failure_reason` string of the route. -/
inductive Verdict where
  | accepted : Verdict
  | acceptedAsSpam : Verdict
  | blocked : String → Verdict
deriving DecidableEq

/-- Observable outcome of one POST to the contact route: verdict, flashed
message (text, category), submission-log store after the `log()` append,
stored contact message if any, whether the notification and confirmation
email collaborators were invoked, and the session afterwards. -/
structure PipelineResult where
  verdict : Verdict
  flash : String × String
  store : List SubmissionRecord
  storedMessage : Option ContactMessageRec
  emailInvoked : Bool
  confirmationInvoked : Bool
  session : SessionState
deriving DecidableEq

/-- Failure determination of the contact route (`routes.py` lines 83-122):
the elif chain evaluates rate limiting, honeypot, user agent, and - when
reCAPTCHA is configured and a parseable validation timestamp is in the
session - the less-than-2-seconds replay check, in that order; the first
failing check fixes `failure_reason`.  No staleness check is performed
here. -/
def securityFailureReason (useRecaptcha : Bool) (store : List SubmissionRecord)
    (sess : SessionState) (req : ContactRequest) (now : ℤ) : Option String :=
  if (check_rate_limit store req.clientIp (some req.email) now).1 = false then
    some "rate_limit_exceeded"
  else if is_honeypot_triggered req.formFields then some "honeypot_triggered"
  else if is_suspicious_user_agent req.userAgent then some "suspicious_user_agent"
  else if useRecaptcha then
    match sess.last_recaptcha_validation with
    | some (some t) => if now - t < 2 then some "recaptcha_too_fast" else none
    | some none => none
    | none => none
  else none

/-- Flash message attached to each failure branch (`routes.py` lines 93, 101,
108, 120); the honeypot branch deliberately flashes the success message. -/
def failureFlash (r : String) : String × String :=
  if r = "rate_limit_exceeded" then
    ("Too many requests. Please wait before submitting another message.", "error")
  else if r = "honeypot_triggered" then
    ("Message sent successfully! I\x27ll get back to you soon.", "success")
  else if r = "suspicious_user_agent" then
    ("Your browser appears to be automated. Please use a standard web browser.", "error")
  else ("Please wait a moment before submitting.", "error")

/-- Embedding of the POST branch of the contact route (`app/blueprints/main/
routes.py` lines 79-199) after successful form validation.  `emailSendOk` and
`confirmSendOk` are the boolean results of the two mail collaborators (which
catch their own exceptions and return a bool).  Every run appends exactly one
submission-log row with `success = (no security failure)`; a failed run
deletes the session validation timestamp and blocks; a passing run scores the
message, stores it with `is_spam = (score > 0.7)`, invokes the mail
collaborators only for non-spam, deletes the session validation timestamp,
records `last_submission`, and flashes success for spam or sent mail and a
warning otherwise. -/
def contactPipeline (useRecaptcha emailSendOk _confirmSendOk : Bool)
    (store : List SubmissionRecord) (sess : SessionState) (req : ContactRequest)
    (now : ℤ) : PipelineResult :=
  match securityFailureReason useRecaptcha store sess req now with
  | some reason =>
    { verdict := .blocked reason
      flash := failureFlash reason
      store := store ++ [{ ip_address := req.clientIp, email := req.email,
                           submitted_at := now, success := false,
                           user_agent := req.userAgent.take 500 }]
      storedMessage := none
      emailInvoked := false
      confirmationInvoked := false
      session := { sess with last_recaptcha_validation := none } }
  | none =>
    { verdict :=
        if decide (7 / 10 < calculate_spam_score req.name req.email req.subject req.message)
        then .acceptedAsSpam else .accepted
      flash :=
        if decide (7 / 10 < calculate_spam_score req.name req.email req.subject req.message)
        then ("Message sent successfully! I\x27ll get back to you soon.", "success")
        else if emailSendOk then
          ("Message sent successfully! I\x27ll get back to you soon.", "success")
        else
          ("Message saved but email notification failed. I\x27ll still see your message and respond soon.", "warning")
      store := store ++ [{ ip_address := req.clientIp, email := req.email,
                           submitted_at := now, success := true,
                           user_agent := req.userAgent.take 500 }]
      storedMessage := some
        { name := req.name, email := req.email, subject := req.subject,
          message := req.message, ip_address := req.clientIp,
          user_agent := req.userAgent.take 500,
          spam_score := calculate_spam_score req.name req.email req.subject req.message,
          is_spam := decide (7 / 10 < calculate_spam_score req.name req.email req.subject req.message) }
      emailInvoked := !decide (7 / 10 < calculate_spam_score req.name req.email req.subject req.message)
      confirmationInvoked := !decide (7 / 10 < calculate_spam_score req.name req.email req.subject req.message)
      session := { last_recaptcha_validation := none, last_submission := some now } }

/-- Notion used by claim C8 (modelled from the claim's words, for comparison
with the code's behaviour): the local part of an email address, the portion
before the first at-sign. -/
def emailLocalPart (email : Text) : Text := email.takeWhile (fun c => !(c == '@'))

lemma natTerm_nonneg (k : Nat) (w cap : ℚ) (hw : 0 ≤ w) (hcap : 0 ≤ cap) :
    0 ≤ (if 0 < k then min ((k : ℚ) * w) cap else 0) := by
  split
  · exact le_min (mul_nonneg (Nat.cast_nonneg k) hw) hcap
  · exact le_refl 0

lemma natTerm_mono (k k' : Nat) (w cap : ℚ) (hw : 0 ≤ w) (hcap : 0 ≤ cap) (h : k ≤ k') :
    (if 0 < k then min ((k : ℚ) * w) cap else 0)
      ≤ (if 0 < k' then min ((k' : ℚ) * w) cap else 0) := by
  split
  · rename_i hk
    rw [if_pos (lt_of_lt_of_le hk h)]
    exact min_le_min (mul_le_mul_of_nonneg_right (by exact_mod_cast h) hw) (le_refl cap)
  · exact natTerm_nonneg k' w cap hw hcap

lemma boolTerm_nonneg (b : Bool) (x : ℚ) (hx : 0 ≤ x) : 0 ≤ (if b then x else 0) := by
  cases b <;> simp [hx]

lemma boolTerm_mono (b b' : Bool) (x : ℚ) (hx : 0 ≤ x) (h : b = true → b' = true) :
    (if b then x else 0) ≤ (if b' then x else 0) := by
  cases b
  · simpa using boolTerm_nonneg b' x hx
  · rw [h rfl]

lemma punctTerm_nonneg (r : ℚ) :
    0 ≤ (if 1 / 10 < r then min (r * (1 / 2)) (1 / 5) else 0) := by
  split
  · rename_i h
    exact le_min (mul_nonneg (by linarith) (by norm_num)) (by norm_num)
  · exact le_refl 0

lemma punctTerm_mono (r r' : ℚ) (h : r ≤ r') :
    (if 1 / 10 < r then min (r * (1 / 2)) (1 / 5) else 0)
      ≤ (if 1 / 10 < r' then min (r' * (1 / 2)) (1 / 5) else 0) := by
  split
  · rename_i hr
    rw [if_pos (lt_of_lt_of_le hr h)]
    exact min_le_min (mul_le_mul_of_nonneg_right h (by norm_num)) (le_refl _)
  · exact punctTerm_nonneg r'

lemma keywordContribution_nonneg (t : Text) : 0 ≤ keywordContribution t := by
  unfold keywordContribution
  exact natTerm_nonneg _ _ _ (by norm_num) (by norm_num)

lemma patternContribution_nonneg (t : Text) : 0 ≤ patternContribution t := by
  unfold patternContribution
  exact natTerm_nonneg _ _ _ (by norm_num) (by norm_num)

lemma lengthContribution_nonneg (m : Text) : 0 ≤ lengthContribution m := by
  unfold lengthContribution
  split_ifs <;> norm_num

lemma numericEmailContribution_nonneg (e : Text) : 0 ≤ numericEmailContribution e := by
  unfold numericEmailContribution
  split <;> norm_num

lemma repeatedCharsContribution_nonneg (t : Text) : 0 ≤ repeatedCharsContribution t := by
  unfold repeatedCharsContribution
  split <;> norm_num

lemma noSpacesContribution_nonneg (m : Text) : 0 ≤ noSpacesContribution m := by
  unfold noSpacesContribution
  split <;> norm_num

lemma punctContribution_nonneg (m : Text) : 0 ≤ punctContribution m := by
  unfold punctContribution
  exact punctTerm_nonneg _

lemma keywordContribution_le (t : Text) : keywordContribution t ≤ 2 / 5 := by
  unfold keywordContribution
  split
  · exact min_le_right _ _
  · norm_num

lemma patternContribution_le (t : Text) : patternContribution t ≤ 3 / 10 := by
  unfold patternContribution
  split
  · exact min_le_right _ _
  · norm_num

lemma punctContribution_le (m : Text) : punctContribution m ≤ 1 / 5 := by
  unfold punctContribution
  split
  · exact min_le_right _ _
  · norm_num

lemma spamSum_nonneg (name email subject message : Text) :
    0 ≤ keywordContribution (all_text name email subject message)
      + patternContribution (all_text name email subject message)
      + lengthContribution message
      + numericEmailContribution email
      + repeatedCharsContribution (all_text name email subject message)
      + noSpacesContribution message
      + punctContribution message := by
  have h1 := keywordContribution_nonneg (all_text name email subject message)
  have h2 := patternContribution_nonneg (all_text name email subject message)
  have h3 := lengthContribution_nonneg message
  have h4 := numericEmailContribution_nonneg email
  have h5 := repeatedCharsContribution_nonneg (all_text name email subject message)
  have h6 := noSpacesContribution_nonneg message
  have h7 := punctContribution_nonneg message
  linarith

lemma lengthContribution_split (m : Text) :
    lengthContribution m
      = (if decide ((stripText m).length < 10) then (1 : ℚ) / 5 else 0)
        + (if decide (¬ (stripText m).length < 10 ∧ 2000 < (stripText m).length)
           then (3 : ℚ) / 20 else 0) := by
  unfold lengthContribution
  by_cases h1 : (stripText m).length < 10 <;>
    by_cases h2 : 2000 < (stripText m).length <;>
      simp [h1, h2]

lemma noSpacesContribution_split (m : Text) :
    noSpacesContribution m
      = (if decide (¬ ' ' ∈ stripText m) then (1 : ℚ) / 5 else 0) := by
  unfold noSpacesContribution
  by_cases h : ' ' ∈ stripText m <;> simp [h]

lemma calculate_spam_score_eq_signals (name email subject message : Text) :
    calculate_spam_score name email subject message
      = scoreOfSignals (signalsOf name email subject message) := by
  unfold calculate_spam_score scoreOfSignals signalsOf contribOfSignals
  congr 1
  rw [lengthContribution_split, noSpacesContribution_split]
  unfold keywordContribution patternContribution numericEmailContribution
    repeatedCharsContribution punctContribution
  ring

lemma contribOfSignals_mono (s t : SpamSignals) (h : SignalsLE s t) :
    contribOfSignals s ≤ contribOfSignals t := by
  obtain ⟨h1, h2, h3, h4, h5, h6, h7, h8⟩ := h
  unfold contribOfSignals
  have m1 := natTerm_mono s.keywordCount t.keywordCount (1 / 10) (2 / 5)
    (by norm_num) (by norm_num) h1
  have m2 := natTerm_mono s.patternCount t.patternCount (1 / 20) (3 / 10)
    (by norm_num) (by norm_num) h2
  have m3 := boolTerm_mono s.shortMessage t.shortMessage (1 / 5) (by norm_num) h3
  have m4 := boolTerm_mono s.longMessage t.longMessage (3 / 20) (by norm_num) h4
  have m5 := boolTerm_mono s.numericEmail t.numericEmail (1 / 10) (by norm_num) h5
  have m6 := boolTerm_mono s.repeatedChars t.repeatedChars (1 / 10) (by norm_num) h6
  have m7 := boolTerm_mono s.noSpaces t.noSpaces (1 / 5) (by norm_num) h7
  have m8 := punctTerm_mono s.punctF t.punctF h8
  linarith

/-- Claim C3: the spam score is clamped to the interval from 0 to 1 for every
input; the keyword signal is individually capped at 0.4, the structural
pattern signal at 0.3 and the punctuation-ratio signal at its cap 0.2; the
score equals a function of the extracted signal vector, and that function is
monotone in the signal vector, so adding any single triggering signal to
otherwise-clean input never decreases the score. -/
theorem spam_score_clamped_capped_monotone :
    (∀ name email subject message : Text,
        0 ≤ calculate_spam_score name email subject message ∧
          calculate_spam_score name email subject message ≤ 1) ∧
    (∀ t : Text, keywordContribution t ≤ 2 / 5) ∧
    (∀ t : Text, patternContribution t ≤ 3 / 10) ∧
    (∀ m : Text, punctContribution m ≤ 1 / 5) ∧
    (∀ name email subject message : Text,
        calculate_spam_score name email subject message
          = scoreOfSignals (signalsOf name email subject message)) ∧
    (∀ s t : SpamSignals, SignalsLE s t → scoreOfSignals s ≤ scoreOfSignals t) := by
  refine ⟨?_, keywordContribution_le, patternContribution_le, punctContribution_le,
    calculate_spam_score_eq_signals, ?_⟩
  · intro name email subject message
    constructor
    · exact le_min (spamSum_nonneg name email subject message) (by norm_num)
    · exact min_le_right _ _
  · intro s t h
    exact min_le_min (contribOfSignals_mono s t h) (le_refl 1)

/-- Witness for C3: monotonicity applied at a concrete pair of signal
vectors (clean, and clean plus three keyword matches). -/
theorem spam_score_monotone_witness :
    scoreOfSignals
        { keywordCount := 0, patternCount := 0, shortMessage := false,
          longMessage := false, numericEmail := false, repeatedChars := false,
          noSpaces := false, punctF := 0 }
      ≤ scoreOfSignals
        { keywordCount := 3, patternCount := 0, shortMessage := false,
          longMessage := false, numericEmail := false, repeatedChars := false,
          noSpaces := false, punctF := 0 } :=
  spam_score_clamped_capped_monotone.2.2.2.2.2 _ _
    ⟨by norm_num, le_refl _, fun h => h, fun h => h, fun h => h, fun h => h,
     fun h => h, le_refl _⟩

lemma check_rate_limit_false_iff (store : List SubmissionRecord) (ip : Text)
    (email : Option Text) (now : ℤ) :
    (check_rate_limit store ip email now).1 = false ↔
      (2 ≤ submissionCount store ip email (now - 60) ∨
        10 ≤ submissionCount store ip email (now - 3600) ∨
        50 ≤ submissionCount store ip email (now - 86400)) := by
  simp only [check_rate_limit, LIMITS, checkRateLimitGo]
  split_ifs with h1 h2 h3 <;> simp_all

lemma check_rate_limit_minute_blocked (store : List SubmissionRecord) (ip : Text)
    (email : Option Text) (now : ℤ)
    (h : 2 ≤ submissionCount store ip email (now - 60)) :
    check_rate_limit store ip email now
      = (false,
         { remaining := [("per_minute", 2 - submissionCount store ip email (now - 60))]
           reset_times := [("per_minute", now + 60)]
           blocked_until := some (now + 60) }) := by
  simp only [check_rate_limit, LIMITS, checkRateLimitGo, List.nil_append, h, if_true]

lemma check_rate_limit_hour_blocked (store : List SubmissionRecord) (ip : Text)
    (email : Option Text) (now : ℤ)
    (h1 : submissionCount store ip email (now - 60) < 2)
    (h2 : 10 ≤ submissionCount store ip email (now - 3600)) :
    (check_rate_limit store ip email now).1 = false ∧
      (check_rate_limit store ip email now).2.blocked_until = some (now + 3600) := by
  have h1n : ¬ 2 ≤ submissionCount store ip email (now - 60) := not_le.2 h1
  simp only [check_rate_limit, LIMITS, checkRateLimitGo, h1n, if_false, h2, if_true]
  constructor <;> trivial

lemma check_rate_limit_day_blocked (store : List SubmissionRecord) (ip : Text)
    (email : Option Text) (now : ℤ)
    (h1 : submissionCount store ip email (now - 60) < 2)
    (h2 : submissionCount store ip email (now - 3600) < 10)
    (h3 : 50 ≤ submissionCount store ip email (now - 86400)) :
    (check_rate_limit store ip email now).1 = false ∧
      (check_rate_limit store ip email now).2.blocked_until = some (now + 86400) := by
  have h1n : ¬ 2 ≤ submissionCount store ip email (now - 60) := not_le.2 h1
  have h2n : ¬ 10 ≤ submissionCount store ip email (now - 3600) := not_le.2 h2
  simp only [check_rate_limit, LIMITS, checkRateLimitGo, h1n, h2n, if_false, h3, if_true]
  constructor <;> trivial

lemma submissionCount_success_irrelevant (store : List SubmissionRecord) (ip : Text)
    (email : Option Text) (ws : ℤ) (f : SubmissionRecord → Bool) :
    submissionCount (store.map (fun r => { r with success := f r })) ip email ws
      = submissionCount store ip email ws := by
  unfold submissionCount
  induction store with
  | nil => rfl
  | cons r rest ih =>
    simp only [List.map_cons, List.filter_cons]
    have hr : rowMatches ip email ws { r with success := f r } = rowMatches ip email ws r := rfl
    rw [hr]
    cases rowMatches ip email ws r <;> simp_all

lemma securityFailureReason_rate (useR : Bool) (store : List SubmissionRecord)
    (sess : SessionState) (req : ContactRequest) (now : ℤ)
    (h : (check_rate_limit store req.clientIp (some req.email) now).1 = false) :
    securityFailureReason useR store sess req now = some "rate_limit_exceeded" := by
  unfold securityFailureReason
  rw [if_pos h]

lemma contactPipeline_blocked (useR eOk cOk : Bool) (store : List SubmissionRecord)
    (sess : SessionState) (req : ContactRequest) (now : ℤ) (r : String)
    (h : securityFailureReason useR store sess req now = some r) :
    contactPipeline useR eOk cOk store sess req now
      = { verdict := .blocked r
          flash := failureFlash r
          store := store ++ [{ ip_address := req.clientIp, email := req.email,
                               submitted_at := now, success := false,
                               user_agent := req.userAgent.take 500 }]
          storedMessage := none
          emailInvoked := false
          confirmationInvoked := false
          session := { sess with last_recaptcha_validation := none } } := by
  unfold contactPipeline
  rw [h]

/-- Claim C1: the rate limiter evaluates the three windows one minute (max
2), one hour (max 10) and one day (max 50) in that order over the
`SubmissionAttempt` rows matching the identity; it denies exactly when some
window's count has reached its max; the first violated window, shortest
first, fixes `blocked_until = now + window length` and short-circuits; the
counting ignores each record's outcome flag; and a submission whose identity
already has 2 or more logged attempts in the last 60 seconds is blocked by
the pipeline with reason `rate_limit_exceeded`. -/
theorem rate_limit_three_windows (store : List SubmissionRecord) (ip : Text)
    (email : Option Text) (now : ℤ) :
    ((check_rate_limit store ip email now).1 = false ↔
      (2 ≤ submissionCount store ip email (now - 60) ∨
        10 ≤ submissionCount store ip email (now - 3600) ∨
        50 ≤ submissionCount store ip email (now - 86400))) ∧
    (2 ≤ submissionCount store ip email (now - 60) →
      check_rate_limit store ip email now
        = (false,
           { remaining := [("per_minute", 2 - submissionCount store ip email (now - 60))]
             reset_times := [("per_minute", now + 60)]
             blocked_until := some (now + 60) })) ∧
    (submissionCount store ip email (now - 60) < 2 →
      10 ≤ submissionCount store ip email (now - 3600) →
      (check_rate_limit store ip email now).1 = false ∧
        (check_rate_limit store ip email now).2.blocked_until = some (now + 3600)) ∧
    (submissionCount store ip email (now - 60) < 2 →
      submissionCount store ip email (now - 3600) < 10 →
      50 ≤ submissionCount store ip email (now - 86400) →
      (check_rate_limit store ip email now).1 = false ∧
        (check_rate_limit store ip email now).2.blocked_until = some (now + 86400)) ∧
    (∀ (f : SubmissionRecord → Bool) (ws : ℤ),
      submissionCount (store.map (fun r => { r with success := f r })) ip email ws
        = submissionCount store ip email ws) ∧
    (∀ (useR eOk cOk : Bool) (sess : SessionState) (req : ContactRequest),
      2 ≤ submissionCount store req.clientIp (some req.email) (now - 60) →
      (contactPipeline useR eOk cOk store sess req now).verdict
        = Verdict.blocked "rate_limit_exceeded") := by
  refine ⟨check_rate_limit_false_iff store ip email now,
    check_rate_limit_minute_blocked store ip email now,
    check_rate_limit_hour_blocked store ip email now,
    check_rate_limit_day_blocked store ip email now,
    fun f ws => submissionCount_success_irrelevant store ip email ws f, ?_⟩
  intro useR eOk cOk sess req h
  have hb : (check_rate_limit store req.clientIp (some req.email) now).1 = false := by
    rw [check_rate_limit_minute_blocked store req.clientIp (some req.email) now h]
  rw [contactPipeline_blocked useR eOk cOk store sess req now "rate_limit_exceeded"
    (securityFailureReason_rate useR store sess req now hb)]

/-- Witness for C1: with two attempts from the same IP 20 and 30 seconds
old, the third submission in the minute is denied with
`blocked_until = now + 60`. -/
theorem rate_limit_three_windows_witness :
    check_rate_limit
        [{ ip_address := "1.2.3.4".data, email := "a@b.c".data, submitted_at := 100,
           success := true, user_agent := [] },
         { ip_address := "1.2.3.4".data, email := "a@b.c".data, submitted_at := 110,
           success := false, user_agent := [] }]
        ("1.2.3.4".data) none 130
      = (false,
         { remaining := [("per_minute",
             2 - submissionCount
               [{ ip_address := "1.2.3.4".data, email := "a@b.c".data, submitted_at := 100,
                  success := true, user_agent := [] },
                { ip_address := "1.2.3.4".data, email := "a@b.c".data, submitted_at := 110,
                  success := false, user_agent := [] }]
               ("1.2.3.4".data) none (130 - 60))]
           reset_times := [("per_minute", (130 : ℤ) + 60)]
           blocked_until := some ((130 : ℤ) + 60) }) :=
  (rate_limit_three_windows
      [{ ip_address := "1.2.3.4".data, email := "a@b.c".data, submitted_at := 100,
         success := true, user_agent := [] },
       { ip_address := "1.2.3.4".data, email := "a@b.c".data, submitted_at := 110,
         success := false, user_agent := [] }]
      ("1.2.3.4".data) none 130).2.1 (by decide)

lemma checkRateLimitGoF_ok_counts (store : List SubmissionRecord) (ip : Text)
    (email : Option Text) (now : ℤ) :
    ∀ (L : List (String × Nat × ℤ)) (info : RateLimitInfo),
      checkRateLimitGoF (fun ws => Except.ok (submissionCount store ip email ws)) now L info
        = Except.ok (checkRateLimitGo store ip email now L info) := by
  intro L
  induction L with
  | nil => intro info; rfl
  | cons a rest ih =>
    intro info
    obtain ⟨name, maxCount, window⟩ := a
    simp only [checkRateLimitGoF, checkRateLimitGo]
    split_ifs
    · rfl
    · exact ih _

/-- Counterexample to claim C2: with a store whose counting query raises on
every window, `check_rate_limit` evaluates to the propagated exception - not
to a deny verdict (`isOk` is false, so no `(allowed, info)` pair at all is
produced). -/
theorem rate_limit_store_fault_counterexample :
    check_rate_limit_fallible (fun _ => Except.error ()) 0 = Except.error () ∧
      (check_rate_limit_fallible (fun _ => Except.error ()) 0).isOk = false := by
  exact ⟨rfl, rfl⟩

/-- Claim C2 (amended): `check_rate_limit` contains no exception handler, so
a store fault raised while counting the first window propagates unchanged to
the caller and no verdict - deny or allow - is returned; with a fault-free
store the fallible reading agrees with the pure embedding. -/
theorem rate_limit_store_fault_propagates :
    (∀ (count : ℤ → Except Unit Nat) (now : ℤ),
        count (now - 60) = Except.error () →
        check_rate_limit_fallible count now = Except.error ()) ∧
    (∀ (store : List SubmissionRecord) (ip : Text) (email : Option Text) (now : ℤ),
        check_rate_limit_fallible (fun ws => Except.ok (submissionCount store ip email ws)) now
          = Except.ok (check_rate_limit store ip email now)) := by
  constructor
  · intro count now h
    simp only [check_rate_limit_fallible, LIMITS, checkRateLimitGoF, h]
  · intro store ip email now
    exact checkRateLimitGoF_ok_counts store ip email now LIMITS _

/-- Witness for C2 (amended): the propagation clause applied to the
always-faulting store at a concrete instant. -/
theorem rate_limit_store_fault_propagates_witness :
    check_rate_limit_fallible (fun _ => Except.error ()) 1 = Except.error () :=
  rate_limit_store_fault_propagates.1 (fun _ => Except.error ()) 1 rfl

lemma submissionCount_none_eq_some_nil (store : List SubmissionRecord) (ip : Text) (ws : ℤ) :
    submissionCount store ip none ws = submissionCount store ip (some []) ws := by
  unfold submissionCount
  apply congrArg List.length
  apply List.filter_congr
  intro r _
  simp [rowMatches]

lemma submissionCount_none_ip_only (store : List SubmissionRecord) (ip : Text) (ws : ℤ) :
    submissionCount store ip none ws
      = (store.filter (fun r => r.ip_address == ip && decide (ws ≤ r.submitted_at))).length := by
  unfold submissionCount
  apply congrArg List.length
  apply List.filter_congr
  intro r _
  simp [rowMatches]

lemma submissionCount_none_filter_ip (store : List SubmissionRecord) (ip : Text) (ws : ℤ) :
    submissionCount (store.filter (fun r => r.ip_address == ip)) ip none ws
      = submissionCount store ip none ws := by
  unfold submissionCount
  rw [List.filter_filter]
  apply congrArg List.length
  apply List.filter_congr
  intro r _
  cases h : (r.ip_address == ip) <;> simp [rowMatches, h]

lemma checkRateLimitGo_count_congr (s1 s2 : List SubmissionRecord) (ip1 ip2 : Text)
    (e1 e2 : Option Text) (now : ℤ)
    (h : ∀ ws, submissionCount s1 ip1 e1 ws = submissionCount s2 ip2 e2 ws) :
    ∀ (L : List (String × Nat × ℤ)) (info : RateLimitInfo),
      checkRateLimitGo s1 ip1 e1 now L info = checkRateLimitGo s2 ip2 e2 now L info := by
  intro L
  induction L with
  | nil => intro info; rfl
  | cons a rest ih =>
    intro info
    obtain ⟨name, maxCount, window⟩ := a
    simp only [checkRateLimitGo, h]
    split_ifs
    · rfl
    · exact ih _

/-- Claim C9: when no email is supplied (`None`, or the falsy empty string),
no email-based union is applied: the rate-limit decision coincides for
`None` and for the empty string, each window's count is exactly the count of
IP-matching rows in the window, and the whole check is unchanged when the
store is first restricted to the rows matching the client identity. -/
theorem rate_limit_ip_only_without_email :
    (∀ (store : List SubmissionRecord) (ip : Text) (now : ℤ),
        check_rate_limit store ip none now = check_rate_limit store ip (some []) now) ∧
    (∀ (store : List SubmissionRecord) (ip : Text) (ws : ℤ),
        submissionCount store ip none ws
          = (store.filter (fun r => r.ip_address == ip && decide (ws ≤ r.submitted_at))).length) ∧
    (∀ (store : List SubmissionRecord) (ip : Text) (now : ℤ),
        check_rate_limit store ip none now
          = check_rate_limit (store.filter (fun r => r.ip_address == ip)) ip none now) := by
  refine ⟨?_, submissionCount_none_ip_only, ?_⟩
  · intro store ip now
    exact checkRateLimitGo_count_congr store store ip ip none (some []) now
      (submissionCount_none_eq_some_nil store ip) LIMITS _
  · intro store ip now
    exact checkRateLimitGo_count_congr store _ ip ip none none now
      (fun ws => (submissionCount_none_filter_ip store ip ws).symm) LIMITS _

/-- Claim C10: after every pipeline run that ends in a blocked verdict, for
any reason, the session's stored challenge-validation timestamp is absent. -/
theorem blocked_run_clears_challenge_session (useR eOk cOk : Bool)
    (store : List SubmissionRecord) (sess : SessionState) (req : ContactRequest)
    (now : ℤ) (r : String)
    (_h : (contactPipeline useR eOk cOk store sess req now).verdict = Verdict.blocked r) :
    (contactPipeline useR eOk cOk store sess req now).session.last_recaptcha_validation
      = none := by
  unfold contactPipeline
  cases hs : securityFailureReason useR store sess req now <;> rfl

/-- Witness for C10: a concrete honeypot-blocked run with a stored session
validation timestamp ends with the timestamp removed. -/
theorem blocked_run_clears_challenge_session_witness :
    (contactPipeline false true true [] { last_recaptcha_validation := some (some 5), last_submission := none }
        { name := "alice".data, email := "a@b.c".data, subject := [],
          message := "hello there friend".data,
          formFields := [("website".data, "x".data)],
          userAgent := "Mozilla/5.0".data, clientIp := "9.9.9.9".data }
        0).session.last_recaptcha_validation = none :=
  blocked_run_clears_challenge_session false true true []
    { last_recaptcha_validation := some (some 5), last_submission := none }
    { name := "alice".data, email := "a@b.c".data, subject := [],
      message := "hello there friend".data,
      formFields := [("website".data, "x".data)],
      userAgent := "Mozilla/5.0".data, clientIp := "9.9.9.9".data }
    0 "honeypot_triggered" (by decide)

lemma securityFailureReason_gates_passed (useR : Bool) (store : List SubmissionRecord)
    (sess : SessionState) (req : ContactRequest) (now : ℤ)
    (h1 : (check_rate_limit store req.clientIp (some req.email) now).1 = true)
    (h2 : is_honeypot_triggered req.formFields = false)
    (h3 : is_suspicious_user_agent req.userAgent = false) :
    securityFailureReason useR store sess req now
      = (if useR then
          match sess.last_recaptcha_validation with
          | some (some t) => if now - t < 2 then some "recaptcha_too_fast" else none
          | some none => none
          | none => none
        else none) := by
  unfold securityFailureReason
  rw [if_neg (by simp [h1]), if_neg (by simp [h2]), if_neg (by simp [h3])]

lemma securityFailureReason_honeypot (useR : Bool) (store : List SubmissionRecord)
    (sess : SessionState) (req : ContactRequest) (now : ℤ)
    (h1 : (check_rate_limit store req.clientIp (some req.email) now).1 = true)
    (h2 : is_honeypot_triggered req.formFields = true) :
    securityFailureReason useR store sess req now = some "honeypot_triggered" := by
  unfold securityFailureReason
  rw [if_neg (by simp [h1]), if_pos (by simp [h2])]

lemma contactPipeline_passed (useR eOk cOk : Bool) (store : List SubmissionRecord)
    (sess : SessionState) (req : ContactRequest) (now : ℤ)
    (h : securityFailureReason useR store sess req now = none) :
    contactPipeline useR eOk cOk store sess req now
      = { verdict :=
            if decide (7 / 10 < calculate_spam_score req.name req.email req.subject req.message)
            then .acceptedAsSpam else .accepted
          flash :=
            if decide (7 / 10 < calculate_spam_score req.name req.email req.subject req.message)
            then ("Message sent successfully! I\x27ll get back to you soon.", "success")
            else if eOk then
              ("Message sent successfully! I\x27ll get back to you soon.", "success")
            else
              ("Message saved but email notification failed. I\x27ll still see your message and respond soon.", "warning")
          store := store ++ [{ ip_address := req.clientIp, email := req.email,
                               submitted_at := now, success := true,
                               user_agent := req.userAgent.take 500 }]
          storedMessage := some
            { name := req.name, email := req.email, subject := req.subject,
              message := req.message, ip_address := req.clientIp,
              user_agent := req.userAgent.take 500,
              spam_score := calculate_spam_score req.name req.email req.subject req.message,
              is_spam := decide (7 / 10 < calculate_spam_score req.name req.email req.subject req.message) }
          emailInvoked := !decide (7 / 10 < calculate_spam_score req.name req.email req.subject req.message)
          confirmationInvoked := !decide (7 / 10 < calculate_spam_score req.name req.email req.subject req.message)
          session := { last_recaptcha_validation := none, last_submission := some now } } := by
  unfold contactPipeline
  rw [h]

/-- Counterexample to claim C4: a challenge validation 360 seconds (6
minutes) old is stale by the repo's own `validate_recaptcha_freshness`
helper, yet the pipeline does not block the submission - the run is
accepted, because the contact route performs only the less-than-2-seconds
check and never calls the staleness helper. -/
theorem stale_challenge_not_blocked_counterexample :
    validate_recaptcha_freshness (some 0) 360 = false ∧
      (contactPipeline true true true []
          { last_recaptcha_validation := some (some 0), last_submission := none }
          { name := "alice".data, email := "alice@sample.org".data, subject := "hi".data,
            message := "hello there i would like to talk about your projects".data,
            formFields := [], userAgent := "Mozilla/5.0".data, clientIp := "9.9.9.9".data }
          360).verdict = Verdict.accepted := by
  constructor
  · rfl
  · have hpass : securityFailureReason true []
        { last_recaptcha_validation := some (some 0), last_submission := none }
        { name := "alice".data, email := "alice@sample.org".data, subject := "hi".data,
          message := "hello there i would like to talk about your projects".data,
          formFields := [], userAgent := "Mozilla/5.0".data, clientIp := "9.9.9.9".data }
        360 = none := by decide
    rw [contactPipeline_passed true true true []
      { last_recaptcha_validation := some (some 0), last_submission := none }
      { name := "alice".data, email := "alice@sample.org".data, subject := "hi".data,
        message := "hello there i would like to talk about your projects".data,
        formFields := [], userAgent := "Mozilla/5.0".data, clientIp := "9.9.9.9".data }
      360 hpass]
    have hk : keywordMatches (all_text "alice".data "alice@sample.org".data "hi".data
        "hello there i would like to talk about your projects".data) = 0 := by decide
    have hp : patternMatches (all_text "alice".data "alice@sample.org".data "hi".data
        "hello there i would like to talk about your projects".data) = 0 := by decide
    have hlen : (stripText "hello there i would like to talk about your projects".data).length
        = 52 := by decide
    have hdr : hasDigitRun5 ("alice@sample.org".data) = false := by decide
    have hrr : hasRepeatedRun (all_text "alice".data "alice@sample.org".data "hi".data
        "hello there i would like to talk about your projects".data) = false := by decide
    have hsp : ' ' ∈ stripText "hello there i would like to talk about your projects".data := by
      decide
    have hpc : ("hello there i would like to talk about your projects".data.filter
        isPunctChar).length = 0 := by decide
    have hml : ("hello there i would like to talk about your projects".data).length = 52 := by
      decide
    have hscore : calculate_spam_score "alice".data "alice@sample.org".data "hi".data
        "hello there i would like to talk about your projects".data = 0 := by
      simp only [calculate_spam_score, keywordContribution, patternContribution,
        lengthContribution, numericEmailContribution, repeatedCharsContribution,
        noSpacesContribution, punctContribution, punctFrac, hk, hp, hlen, hdr, hrr, hpc, hml,
        if_pos hsp]
      norm_num
    have hns : ¬ (7 / 10 < calculate_spam_score "alice".data "alice@sample.org".data "hi".data
        "hello there i would like to talk about your projects".data) := by
      rw [hscore]; norm_num
    simp only [decide_eq_false hns]
    rfl

/-- Claim C4 (amended): for a submission carrying a parseable session
challenge-validation timestamp and passing the earlier gates, the pipeline
blocks with reason `recaptcha_too_fast` exactly when the validation is less
than 2 seconds old; every validation at least 2 seconds old - including ones
older than 5 minutes - passes the route's freshness guard and is never
blocked (the 5-minute staleness rule lives only in the uncalled helper
`validate_recaptcha_freshness`, which flags exactly the validations older
than 300 seconds). -/
theorem challenge_freshness_too_fast_only (eOk cOk : Bool)
    (store : List SubmissionRecord) (sess : SessionState) (req : ContactRequest)
    (now t : ℤ)
    (h1 : (check_rate_limit store req.clientIp (some req.email) now).1 = true)
    (h2 : is_honeypot_triggered req.formFields = false)
    (h3 : is_suspicious_user_agent req.userAgent = false)
    (h4 : sess.last_recaptcha_validation = some (some t)) :
    (now - t < 2 →
      (contactPipeline true eOk cOk store sess req now).verdict
        = Verdict.blocked "recaptcha_too_fast") ∧
    (2 ≤ now - t →
      ∀ r : String,
        (contactPipeline true eOk cOk store sess req now).verdict ≠ Verdict.blocked r) ∧
    (validate_recaptcha_freshness (some t) now = false ↔ 300 < now - t) := by
  have hg := securityFailureReason_gates_passed true store sess req now h1 h2 h3
  rw [h4] at hg
  have hg2 : securityFailureReason true store sess req now
      = (if now - t < 2 then some "recaptcha_too_fast" else none) := by rw [hg]; rfl
  refine ⟨?_, ?_, ?_⟩
  · intro hf
    rw [if_pos hf] at hg2
    rw [contactPipeline_blocked true eOk cOk store sess req now _ hg2]
  · intro hf r
    rw [if_neg (by omega)] at hg2
    rw [contactPipeline_passed true eOk cOk store sess req now hg2]
    cases hq : decide
        (7 / 10 < calculate_spam_score req.name req.email req.subject req.message) <;>
      simp [hq]
  · have hv : validate_recaptcha_freshness (some t) now
        = (if 300 < now - t then false else true) := rfl
    rw [hv]
    constructor
    · intro hf
      split_ifs at hf with hc
      exact hc
    · intro hc
      rw [if_pos hc]

/-- Witness for C4 (amended): a concrete run with a 360-second-old
validation is not blocked for any reason, in particular not as stale. -/
theorem challenge_freshness_too_fast_only_witness :
    (contactPipeline true true true []
        { last_recaptcha_validation := some (some 40), last_submission := none }
        { name := "dave".data, email := "dave@sample.org".data, subject := "hey".data,
          message := "i enjoyed reading about your recent side projects".data,
          formFields := [], userAgent := "Mozilla/5.0".data, clientIp := "7.7.7.7".data }
        400).verdict ≠ Verdict.blocked "challenge_stale" :=
  (challenge_freshness_too_fast_only true true []
      { last_recaptcha_validation := some (some 40), last_submission := none }
      { name := "dave".data, email := "dave@sample.org".data, subject := "hey".data,
        message := "i enjoyed reading about your recent side projects".data,
        formFields := [], userAgent := "Mozilla/5.0".data, clientIp := "7.7.7.7".data }
      400 40 (by decide) (by decide) (by decide) rfl).2.1 (by decide) "challenge_stale"

/-- Claim C5: the honeypot detector returns true exactly when some decoy
field is present in the form with a value that is non-empty after stripping
whitespace; every submission that passes the rate limiter and triggers the
honeypot is blocked internally with reason `honeypot_triggered` while the
flashed response is literally the success response - the same (text,
category) pair flashed to an accepted submission whose notification email
was sent. -/
theorem honeypot_detector_and_masking :
    (∀ form : List (Text × Text),
        is_honeypot_triggered form = true ↔
          ∃ f ∈ honeypot_fields, ∃ v, lookupField form f = some v ∧ stripText v ≠ []) ∧
    (∀ (useR eOk cOk : Bool) (store : List SubmissionRecord) (sess : SessionState)
        (req : ContactRequest) (now : ℤ),
        (check_rate_limit store req.clientIp (some req.email) now).1 = true →
        is_honeypot_triggered req.formFields = true →
        (contactPipeline useR eOk cOk store sess req now).verdict
            = Verdict.blocked "honeypot_triggered" ∧
          (contactPipeline useR eOk cOk store sess req now).flash
            = ("Message sent successfully! I\x27ll get back to you soon.", "success")) ∧
    (∀ (useR eOk cOk : Bool) (store : List SubmissionRecord) (sess : SessionState)
        (req : ContactRequest) (now : ℤ),
        securityFailureReason useR store sess req now = none → eOk = true →
        (contactPipeline useR eOk cOk store sess req now).flash
          = ("Message sent successfully! I\x27ll get back to you soon.", "success")) := by
  refine ⟨?_, ?_, ?_⟩
  · intro form
    unfold is_honeypot_triggered
    rw [List.any_eq_true]
    constructor
    · rintro ⟨f, hf, hmatch⟩
      refine ⟨f, hf, ?_⟩
      cases hl : lookupField form f with
      | none => rw [hl] at hmatch; exact absurd hmatch (by simp)
      | some v =>
        rw [hl] at hmatch
        refine ⟨v, rfl, ?_⟩
        intro hnil
        have hmatch2 : (!(stripText v).isEmpty) = true := hmatch
        rw [hnil] at hmatch2
        simp at hmatch2
    · rintro ⟨f, hf, v, hl, hne⟩
      refine ⟨f, hf, ?_⟩
      rw [hl]
      simpa using hne
  · intro useR eOk cOk store sess req now h1 h2
    rw [contactPipeline_blocked useR eOk cOk store sess req now _
      (securityFailureReason_honeypot useR store sess req now h1 h2)]
    exact ⟨rfl, rfl⟩
  · intro useR eOk cOk store sess req now h heOk
    rw [contactPipeline_passed useR eOk cOk store sess req now h, heOk]
    cases hq : decide
        (7 / 10 < calculate_spam_score req.name req.email req.subject req.message) <;>
      simp [hq]

/-- Witness for C5: a concrete submission with the `url` decoy field filled
is blocked as `honeypot_triggered` and receives the success flash. -/
theorem honeypot_detector_and_masking_witness :
    (contactPipeline false true true []
          { last_recaptcha_validation := none, last_submission := none }
          { name := "carol".data, email := "carol@mail.net".data, subject := [],
            message := "hello again my old friend".data,
            formFields := [("url".data, "http://x.example".data)],
            userAgent := "Mozilla/5.0".data, clientIp := "8.8.8.8".data }
          7).verdict = Verdict.blocked "honeypot_triggered" ∧
      (contactPipeline false true true []
          { last_recaptcha_validation := none, last_submission := none }
          { name := "carol".data, email := "carol@mail.net".data, subject := [],
            message := "hello again my old friend".data,
            formFields := [("url".data, "http://x.example".data)],
            userAgent := "Mozilla/5.0".data, clientIp := "8.8.8.8".data }
          7).flash = ("Message sent successfully! I\x27ll get back to you soon.", "success") :=
  honeypot_detector_and_masking.2.1 false true true []
    { last_recaptcha_validation := none, last_submission := none }
    { name := "carol".data, email := "carol@mail.net".data, subject := [],
      message := "hello again my old friend".data,
      formFields := [("url".data, "http://x.example".data)],
      userAgent := "Mozilla/5.0".data, clientIp := "8.8.8.8".data }
    7 (by decide) (by decide)

/-- Claim C6: every submission that clears all gating checks stores a
message whose spam score is the score computed at creation and whose spam
flag equals `score > 0.7` as a function of that score; when the flag is
true, the message is still stored, neither mail collaborator is invoked,
and the submitter receives the success flash. -/
theorem spam_flag_threshold_and_notification (useR eOk cOk : Bool)
    (store : List SubmissionRecord) (sess : SessionState) (req : ContactRequest)
    (now : ℤ)
    (h : securityFailureReason useR store sess req now = none) :
    ((contactPipeline useR eOk cOk store sess req now).storedMessage
        = some { name := req.name, email := req.email, subject := req.subject,
                 message := req.message, ip_address := req.clientIp,
                 user_agent := req.userAgent.take 500,
                 spam_score := calculate_spam_score req.name req.email req.subject req.message,
                 is_spam := decide (7 / 10 <
                   calculate_spam_score req.name req.email req.subject req.message) }) ∧
    (7 / 10 < calculate_spam_score req.name req.email req.subject req.message →
      (contactPipeline useR eOk cOk store sess req now).verdict = Verdict.acceptedAsSpam ∧
      (contactPipeline useR eOk cOk store sess req now).emailInvoked = false ∧
      (contactPipeline useR eOk cOk store sess req now).confirmationInvoked = false ∧
      (contactPipeline useR eOk cOk store sess req now).flash
        = ("Message sent successfully! I\x27ll get back to you soon.", "success")) := by
  rw [contactPipeline_passed useR eOk cOk store sess req now h]
  refine ⟨rfl, fun hs => ?_⟩
  simp only [decide_eq_true hs, if_true, Bool.not_true]
  exact ⟨trivial, trivial, trivial, trivial⟩

set_option maxRecDepth 100000 in
/-- Witness for C6: a concrete keyword-heavy submission clears the gates,
scores 3/4 (above the 0.7 threshold), is stored as spam, and triggers
neither mail collaborator while flashing success. -/
theorem spam_flag_threshold_and_notification_witness :
    (contactPipeline false true true []
          { last_recaptcha_validation := none, last_submission := none }
          { name := "Bob".data, email := "bob@x.y".data, subject := "hi".data,
            message := "bitcoin casino viagra pharmacy guaranteed urgent cheap discount $5000 aaaaa http://spam.example go!!!".data,
            formFields := [], userAgent := "Mozilla/5.0".data, clientIp := "6.6.6.6".data }
          50).verdict = Verdict.acceptedAsSpam ∧
      (contactPipeline false true true []
          { last_recaptcha_validation := none, last_submission := none }
          { name := "Bob".data, email := "bob@x.y".data, subject := "hi".data,
            message := "bitcoin casino viagra pharmacy guaranteed urgent cheap discount $5000 aaaaa http://spam.example go!!!".data,
            formFields := [], userAgent := "Mozilla/5.0".data, clientIp := "6.6.6.6".data }
          50).emailInvoked = false ∧
      (contactPipeline false true true []
          { last_recaptcha_validation := none, last_submission := none }
          { name := "Bob".data, email := "bob@x.y".data, subject := "hi".data,
            message := "bitcoin casino viagra pharmacy guaranteed urgent cheap discount $5000 aaaaa http://spam.example go!!!".data,
            formFields := [], userAgent := "Mozilla/5.0".data, clientIp := "6.6.6.6".data }
          50).confirmationInvoked = false ∧
      (contactPipeline false true true []
          { last_recaptcha_validation := none, last_submission := none }
          { name := "Bob".data, email := "bob@x.y".data, subject := "hi".data,
            message := "bitcoin casino viagra pharmacy guaranteed urgent cheap discount $5000 aaaaa http://spam.example go!!!".data,
            formFields := [], userAgent := "Mozilla/5.0".data, clientIp := "6.6.6.6".data }
          50).flash = ("Message sent successfully! I\x27ll get back to you soon.", "success") := by
  have hk : keywordMatches (all_text "Bob".data "bob@x.y".data "hi".data
      "bitcoin casino viagra pharmacy guaranteed urgent cheap discount $5000 aaaaa http://spam.example go!!!".data)
      = 8 := by decide
  have hp : patternMatches (all_text "Bob".data "bob@x.y".data "hi".data
      "bitcoin casino viagra pharmacy guaranteed urgent cheap discount $5000 aaaaa http://spam.example go!!!".data)
      = 5 := by decide
  have hlen : (stripText "bitcoin casino viagra pharmacy guaranteed urgent cheap discount $5000 aaaaa http://spam.example go!!!".data).length
      = 101 := by decide
  have hdr : hasDigitRun5 ("bob@x.y".data) = false := by decide
  have hrr : hasRepeatedRun (all_text "Bob".data "bob@x.y".data "hi".data
      "bitcoin casino viagra pharmacy guaranteed urgent cheap discount $5000 aaaaa http://spam.example go!!!".data)
      = true := by decide
  have hsp : ' ' ∈ stripText "bitcoin casino viagra pharmacy guaranteed urgent cheap discount $5000 aaaaa http://spam.example go!!!".data := by
    decide
  have hpc : ("bitcoin casino viagra pharmacy guaranteed urgent cheap discount $5000 aaaaa http://spam.example go!!!".data.filter
      isPunctChar).length = 6 := by decide
  have hml : ("bitcoin casino viagra pharmacy guaranteed urgent cheap discount $5000 aaaaa http://spam.example go!!!".data).length
      = 101 := by decide
  have hscore : calculate_spam_score "Bob".data "bob@x.y".data "hi".data
      "bitcoin casino viagra pharmacy guaranteed urgent cheap discount $5000 aaaaa http://spam.example go!!!".data
      = 3 / 4 := by
    simp only [calculate_spam_score, keywordContribution, patternContribution,
      lengthContribution, numericEmailContribution, repeatedCharsContribution,
      noSpacesContribution, punctContribution, punctFrac, hk, hp, hlen, hdr, hrr, hpc, hml,
      if_pos hsp]
    norm_num [min_def]
  exact spam_flag_threshold_and_notification false true true []
    { last_recaptcha_validation := none, last_submission := none }
    { name := "Bob".data, email := "bob@x.y".data, subject := "hi".data,
      message := "bitcoin casino viagra pharmacy guaranteed urgent cheap discount $5000 aaaaa http://spam.example go!!!".data,
      formFields := [], userAgent := "Mozilla/5.0".data, clientIp := "6.6.6.6".data }
    50 (by decide) |>.2 (by rw [hscore]; norm_num)

/-- Counterexample to claim C7: purging a store holding one 31-day-old row
with a 30-day cutoff deletes that row (the local count is 1) but the
function's return value is `None`, not the count of deleted records
(`cleanup_old_logs` is annotated `-> None` and has no return statement). -/
theorem cleanup_returns_none_counterexample :
    (cleanup_old_logs
        [{ ip_address := "5.5.5.5".data, email := "e@f.g".data, submitted_at := 0,
           success := true, user_agent := [] }] 2678400 30).deletedCount = 1 ∧
      (cleanup_old_logs
        [{ ip_address := "5.5.5.5".data, email := "e@f.g".data, submitted_at := 0,
           success := true, user_agent := [] }] 2678400 30).retVal = none := by
  exact ⟨by decide, rfl⟩

/-- Claim C7 (amended): the purge deletes exactly the rows strictly older
than the cutoff `now - days` (in particular a row exactly at the cutoff is
retained), the deleted count plus the survivors account for the whole store,
and the count - bound locally and logged - is not returned: the function
returns `None`. -/
theorem cleanup_purges_strictly_older (store : List SubmissionRecord) (now days : ℤ) :
    ((cleanup_old_logs store now days).retVal = none) ∧
    (∀ r : SubmissionRecord,
        r ∈ (cleanup_old_logs store now days).store ↔
          r ∈ store ∧ ¬ r.submitted_at < now - days * 86400) ∧
    ((cleanup_old_logs store now days).store.length
        + (cleanup_old_logs store now days).deletedCount = store.length) ∧
    (∀ r ∈ store, r.submitted_at = now - days * 86400 →
        r ∈ (cleanup_old_logs store now days).store) := by
  refine ⟨rfl, ?_, ?_, ?_⟩
  · intro r
    simp [cleanup_old_logs, List.mem_filter]
  · have h := List.length_eq_length_filter_add
      (l := store) (fun r => decide (r.submitted_at < now - days * 86400))
    simp only [cleanup_old_logs]
    omega
  · intro r hr he
    simp only [cleanup_old_logs, List.mem_filter]
    exact ⟨hr, by simp [he]⟩

/-- Witness for C7 (amended): with rows 29, 30 and 31 days old and a 30-day
cutoff, the row exactly 30 days old is retained by the purge. -/
theorem cleanup_purges_strictly_older_witness :
    { ip_address := "2.2.2.2".data, email := "b@b.b".data, submitted_at := 864000,
      success := true, user_agent := [] : SubmissionRecord } ∈
      (cleanup_old_logs
        [{ ip_address := "1.1.1.1".data, email := "a@a.a".data, submitted_at := 950400,
           success := true, user_agent := [] },
         { ip_address := "2.2.2.2".data, email := "b@b.b".data, submitted_at := 864000,
           success := true, user_agent := [] },
         { ip_address := "3.3.3.3".data, email := "c@c.c".data, submitted_at := 777600,
           success := false, user_agent := [] }] 3456000 30).store :=
  (cleanup_purges_strictly_older
      [{ ip_address := "1.1.1.1".data, email := "a@a.a".data, submitted_at := 950400,
         success := true, user_agent := [] },
       { ip_address := "2.2.2.2".data, email := "b@b.b".data, submitted_at := 864000,
         success := true, user_agent := [] },
       { ip_address := "3.3.3.3".data, email := "c@c.c".data, submitted_at := 777600,
         success := false, user_agent := [] }] 3456000 30).2.2.2
    { ip_address := "2.2.2.2".data, email := "b@b.b".data, submitted_at := 864000,
      success := true, user_agent := [] }
    (by decide) (by decide)

lemma takeWhile_digit_append (run r2 : Text) (h : ∀ c ∈ run, Char.isDigit c = true) :
    (run ++ r2).takeWhile Char.isDigit = run ++ r2.takeWhile Char.isDigit := by
  induction run with
  | nil => simp
  | cons c cs ih =>
    have hc : Char.isDigit c = true := h c (List.mem_cons_self c cs)
    simp only [List.cons_append, List.takeWhile_cons, hc, if_true]
    rw [ih (fun x hx => h x (List.mem_cons_of_mem c hx))]

lemma hasDigitRun5_iff (t : Text) :
    hasDigitRun5 t = true ↔
      ∃ l run r2, t = l ++ run ++ r2 ∧ run.length = 5 ∧
        ∀ c ∈ run, Char.isDigit c = true := by
  unfold hasDigitRun5
  rw [List.any_eq_true]
  constructor
  · rintro ⟨i, hi, hdec⟩
    rw [List.mem_range] at hi
    rw [decide_eq_true_eq] at hdec
    refine ⟨t.take i, ((t.drop i).takeWhile Char.isDigit).take 5,
      ((t.drop i).takeWhile Char.isDigit).drop 5 ++ (t.drop i).dropWhile Char.isDigit,
      ?_, ?_, ?_⟩
    · conv_lhs => rw [← List.take_append_drop i t]
      rw [List.append_assoc]
      congr 1
      rw [← List.append_assoc, List.take_append_drop, List.takeWhile_append_dropWhile]
    · rw [List.length_take]
      omega
    · intro c hc
      exact List.mem_takeWhile_imp (List.take_subset 5 _ hc)
  · rintro ⟨l, run, r2, rfl, hlen, hall⟩
    refine ⟨l.length, ?_, ?_⟩
    · rw [List.mem_range]
      simp only [List.length_append]
      omega
    · rw [decide_eq_true_eq]
      rw [List.append_assoc, List.drop_left]
      rw [takeWhile_digit_append run r2 hall]
      rw [List.length_append, hlen]
      omega

set_option maxRecDepth 40000 in
/-- Counterexample to claim C8: the email `user@12345.com` has no digit run
in its local part (`user`), yet the numeric-email signal fires and adds 0.1
- the code searches the whole address, so digits confined to the domain do
trigger it; swapping the domain for a digit-free one removes exactly that
0.1 from the full score. -/
theorem numeric_email_domain_digits_counterexample :
    numericEmailContribution ("user@12345.com".data) = 1 / 10 ∧
      hasDigitRun5 (emailLocalPart ("user@12345.com".data)) = false ∧
      calculate_spam_score "alice".data "user@12345.com".data "hi".data
        "hello there friend of mine".data = 1 / 10 ∧
      calculate_spam_score "alice".data "user@sample.com".data "hi".data
        "hello there friend of mine".data = 0 := by
  have hd1 : hasDigitRun5 ("user@12345.com".data) = true := by decide
  refine ⟨by simp [numericEmailContribution, hd1], by decide, ?_, ?_⟩
  · have hk : keywordMatches (all_text "alice".data "user@12345.com".data "hi".data
        "hello there friend of mine".data) = 0 := by decide
    have hp : patternMatches (all_text "alice".data "user@12345.com".data "hi".data
        "hello there friend of mine".data) = 0 := by decide
    have hlen : (stripText "hello there friend of mine".data).length = 26 := by decide
    have hrr : hasRepeatedRun (all_text "alice".data "user@12345.com".data "hi".data
        "hello there friend of mine".data) = false := by decide
    have hsp : ' ' ∈ stripText "hello there friend of mine".data := by decide
    have hpc : ("hello there friend of mine".data.filter isPunctChar).length = 0 := by decide
    have hml : ("hello there friend of mine".data).length = 26 := by decide
    simp only [calculate_spam_score, keywordContribution, patternContribution,
      lengthContribution, numericEmailContribution, repeatedCharsContribution,
      noSpacesContribution, punctContribution, punctFrac, hk, hp, hlen, hd1, hrr, hpc, hml,
      if_pos hsp]
    norm_num
  · have hd2 : hasDigitRun5 ("user@sample.com".data) = false := by decide
    have hk : keywordMatches (all_text "alice".data "user@sample.com".data "hi".data
        "hello there friend of mine".data) = 0 := by decide
    have hp : patternMatches (all_text "alice".data "user@sample.com".data "hi".data
        "hello there friend of mine".data) = 0 := by decide
    have hlen : (stripText "hello there friend of mine".data).length = 26 := by decide
    have hrr : hasRepeatedRun (all_text "alice".data "user@sample.com".data "hi".data
        "hello there friend of mine".data) = false := by decide
    have hsp : ' ' ∈ stripText "hello there friend of mine".data := by decide
    have hpc : ("hello there friend of mine".data.filter isPunctChar).length = 0 := by decide
    have hml : ("hello there friend of mine".data).length = 26 := by decide
    simp only [calculate_spam_score, keywordContribution, patternContribution,
      lengthContribution, numericEmailContribution, repeatedCharsContribution,
      noSpacesContribution, punctContribution, punctFrac, hk, hp, hlen, hd2, hrr, hpc, hml,
      if_pos hsp]
    norm_num

/-- Claim C8 (amended): the numeric-email signal contributes exactly its
fixed penalty 0.1 when the whole submitted email address - local part or
domain alike - contains five consecutive digits (a decomposition
`l ++ run ++ r` with `run` five digit characters), and contributes 0
otherwise. -/
theorem numeric_email_signal_whole_address (email : Text) :
    (numericEmailContribution email = 1 / 10 ↔
      ∃ l run r2, email = l ++ run ++ r2 ∧ run.length = 5 ∧
        ∀ c ∈ run, Char.isDigit c = true) ∧
    (numericEmailContribution email = 0 ↔
      ¬ ∃ l run r2, email = l ++ run ++ r2 ∧ run.length = 5 ∧
        ∀ c ∈ run, Char.isDigit c = true) := by
  have h := hasDigitRun5_iff email
  unfold numericEmailContribution
  by_cases hb : hasDigitRun5 email = true
  · rw [if_pos hb]
    constructor
    · exact ⟨fun _ => h.1 hb, fun _ => rfl⟩
    · constructor
      · intro h0
        exact absurd h0 (by norm_num)
      · intro hnex
        exact absurd (h.1 hb) hnex
  · rw [if_neg hb]
    have hnex : ¬ ∃ l run r2, email = l ++ run ++ r2 ∧ run.length = 5 ∧
        ∀ c ∈ run, Char.isDigit c = true := fun hex => hb (h.2 hex)
    constructor
    · constructor
      · intro h0
        exact absurd h0.symm (by norm_num)
      · intro hex
        exact absurd hex hnex
    · exact ⟨fun _ => hnex, fun _ => rfl⟩
